import Mathlib

/-!
Shallow embedding of the sqliteORM repository (src/orm/orm.py): field
constraint validation, column-fragment compilation, model/schema DDL
generation, migration management, batch execution and the singleton
connection manager. Python exceptions are modelled with `Except String`,
Python `None`-able values with `Option`, and Python truthiness of strings
and integers explicitly.
-/

namespace SqliteORM

/-- A Python value that can be passed as the `max_length` argument of
`CharField.__init__`: `None`, an `int`, or a `str`. -/
inductive PyVal where
  | none : PyVal
  | int : Int → PyVal
  | str : String → PyVal
deriving DecidableEq, Repr

/-- Python f-string rendering of a `PyVal` (`str(None) = "None"`). -/
def PyVal.pyStr : PyVal → String
  | PyVal.none => "None"
  | PyVal.int n => toString n
  | PyVal.str s => s

/-- Python truthiness of an optional string: `None` and `""` are falsy. -/
def optStrTruthy : Option String → Bool
  | Option.none => false
  | Option.some s => s ≠ ""

/-- Python f-string rendering of an optional string (`None → "None"`). -/
def optStrPyStr : Option String → String
  | Option.none => "None"
  | Option.some s => s

/-- Python truthiness of an optional integer: `None` and `0` are falsy. -/
def optIntTruthy : Option Int → Bool
  | Option.none => false
  | Option.some n => n ≠ 0

/-- Python f-string rendering of an optional integer (`None → "None"`). -/
def optIntPyStr : Option Int → String
  | Option.none => "None"
  | Option.some n => toString n

/-- Message raised by `CharField._check_max_length_and_type`. -/
def maxLengthTypeMsg : String :=
  "max_length can\x27t be None or less than 2 characters and it should be an integer!"

/-- Message raised by `CharField._check_max_length_limit`. -/
def maxLengthLimitMsg : String :=
  "CharField can not be longer than 255 characters. Use TextField!"

/-- Message raised by `CharField._primary_key_checks`. -/
def primaryKeyMsg : String :=
  "When using primary_key=True, do not set anything other than max_length"

/-- Message raised by `CharField._unique_constraint_checks`. -/
def uniqueDefaultMsg : String :=
  "If using CharField as unique you can\x27t give a default value"

/-- Message raised by `CharField._check_for_default_val`. -/
def needsDefaultMsg : String :=
  "If null is False and primary_key=False, then it needs a default value"

/-- Message raised by `MigrationManager.__init__` on a non-list argument. -/
def notAListMsg : String := "models should be a list of Models"

/-- Message raised by `MigrationManager._create_migrations` on a non-Model entry. -/
def notAModelMsg : String := "Make sure you inherit Model when creating Models"

/-- The attribute state of a constructed `CharField` instance. -/
structure CharField where
  max_length : PyVal
  primary_key : Bool
  unique : Bool
  null : Bool
  default : Option String
deriving DecidableEq, Repr

/-- Embeds `CharField._check_max_length_and_type`: rejects a `max_length` that is
not an `int` (incl. `None`) or is `≤ 1`. -/
def charFieldCheckMaxLengthAndType (ml : PyVal) : Except String Unit :=
  match ml with
  | PyVal.int n => if n ≤ 1 then Except.error maxLengthTypeMsg else Except.ok ()
  | _ => Except.error maxLengthTypeMsg

/-- Embeds `CharField._check_max_length_limit`: rejects an integer `max_length`
above 255.  (It is only ever reached after the type check succeeded, so
the non-integer branch is unreachable and returns `ok`.) -/
def charFieldCheckMaxLengthLimit (ml : PyVal) : Except String Unit :=
  match ml with
  | PyVal.int n => if 255 < n then Except.error maxLengthLimitMsg else Except.ok ()
  | _ => Except.ok ()

/-- Embeds `CharField._basic_checks`: runs the two max_length checks in order. -/
def charFieldBasicChecks (ml : PyVal) : Except String Unit := do
  charFieldCheckMaxLengthAndType ml
  charFieldCheckMaxLengthLimit ml

/-- Embeds `CharField.__init__`: runs `_basic_checks`, then exactly one of
`_primary_key_checks` / `_unique_constraint_checks` /
`_check_for_default_val` on the `if/elif/elif` chain; the unique branch
forces `null := True` after its check.  The primary-key check tests
`default is not None` (`isSome`), the other two test Python truthiness. -/
def charFieldInit (max_length : PyVal) (primary_key unique null : Bool)
    (default : Option String) : Except String CharField := do
  charFieldBasicChecks max_length
  if primary_key then
    if null || default.isSome || unique then
      Except.error primaryKeyMsg
    else
      Except.ok ⟨max_length, primary_key, unique, null, default⟩
  else if unique then
    if optStrTruthy default then
      Except.error uniqueDefaultMsg
    else
      Except.ok ⟨max_length, primary_key, unique, true, default⟩
  else if !null then
    if !optStrTruthy default then
      Except.error needsDefaultMsg
    else
      Except.ok ⟨max_length, primary_key, unique, null, default⟩
  else
    Except.ok ⟨max_length, primary_key, unique, null, default⟩

/-- Embeds `Field.check_null`. -/
def CharField.check_null (f : CharField) : String :=
  if !f.null then " NOT NULL" else ""

/-- Embeds `Field.check_primary_key`. -/
def CharField.check_primary_key (f : CharField) : String :=
  if f.primary_key then " PRIMARY KEY" else ""

/-- Embeds `Field.check_unique`. -/
def CharField.check_unique (f : CharField) : String :=
  if f.unique then " UNIQUE" else ""

/-- Embeds `Field.check_default`: emits `DEFAULT '<value>'` when the default is
truthy (f-string interpolation of the stored value). -/
def CharField.check_default (f : CharField) : String :=
  if optStrTruthy f.default then " DEFAULT \x27" ++ optStrPyStr f.default ++ "\x27" else ""

/-- Embeds `Field.remaning_definition`: concatenates the four `check_*` fragments
in the serialized `method_order`: null, primary key, unique, default. -/
def CharField.remaning_definition (f : CharField) : String :=
  f.check_null ++ f.check_primary_key ++ f.check_unique ++ f.check_default

/-- Embeds `CharField.to_sql`: the primary-key template from `relationship_mapper`
with `VARCHAR(<max_length>)` substituted, else `VARCHAR(<max_length>)`
followed by `remaning_definition`. -/
def CharField.to_sql (f : CharField) : String :=
  if f.primary_key then
    "VARCHAR(" ++ f.max_length.pyStr ++ ") NOT NULL PRIMARY KEY"
  else
    "VARCHAR(" ++ f.max_length.pyStr ++ ")" ++ f.remaning_definition

/-- The attribute state of a constructed `TextField` instance. -/
structure TextField where
  primary_key : Bool
  unique : Bool
  null : Bool
  default : Option String
deriving DecidableEq, Repr

/-- Embeds `TextField.__init__`. -/
def textFieldInit (primary_key unique null : Bool) (default : Option String) :
    Except String TextField :=
  if primary_key then Except.error "TEXT fields cannot be set as Primary Key"
  else if unique then Except.error "TEXT fields cannot be set as UNIQUE"
  else Except.ok ⟨primary_key, unique, null, default⟩

/-- Embeds `TextField.to_sql`.  Note the source appends the DEFAULT clause when the
default is FALSY (`if not self.default`), interpolating the falsy value. -/
def TextField.to_sql (f : TextField) : String :=
  "TEXT" ++ (if !f.null then " NOT NULL" else "")
    ++ (if !optStrTruthy f.default then " DEFAULT \x27" ++ optStrPyStr f.default ++ "\x27" else "")

/-- The attribute state of a constructed `IntegerField` instance. -/
structure IntegerField where
  primary_key : Bool
  unique : Bool
  null : Bool
  default : Option Int
deriving DecidableEq, Repr

/-- Embeds `IntegerField.__init__`. -/
def integerFieldInit (primary_key unique null : Bool) (default : Option Int) :
    Except String IntegerField :=
  if primary_key then Except.error "Instead use AutoField as Primary Key"
  else Except.ok ⟨primary_key, unique, null, default⟩

/-- Embeds `IntegerField.to_sql`: `INTEGER`, then UNIQUE, then NOT NULL, then a
DEFAULT clause — `DEFAULT <value>` when the default is FALSY
(`if not self.default`), `DEFAULT NULL` when it is truthy. -/
def IntegerField.to_sql (f : IntegerField) : String :=
  "INTEGER" ++ (if f.unique then " UNIQUE" else "")
    ++ (if !f.null then " NOT NULL" else "")
    ++ (if !optIntTruthy f.default then " DEFAULT " ++ optIntPyStr f.default
        else " DEFAULT NULL")

/-- A field object stored on a model class (the field kinds the claims use). -/
inductive FieldObj where
  | char : CharField → FieldObj
  | text : TextField → FieldObj
  | integer : IntegerField → FieldObj
deriving DecidableEq, Repr

/-- Dispatch of `to_sql` over the field object. -/
def FieldObj.to_sql : FieldObj → String
  | FieldObj.char f => f.to_sql
  | FieldObj.text f => f.to_sql
  | FieldObj.integer f => f.to_sql

/-- A `Model` subclass: optional `_table_name` override, the class name,
and the `Field`-valued class attributes in declaration (= `__dict__`
insertion) order. -/
structure Model where
  table_name : Option String
  className : String
  fields : List (String × FieldObj)
deriving DecidableEq, Repr

/-- Embeds `Model._get_table_name`: the override if truthy (non-`None`, non-empty),
else the lower-cased class name. -/
def Model.get_table_name (m : Model) : String :=
  match m.table_name with
  | Option.some s => if s = "" then m.className.toLower else s
  | Option.none => m.className.toLower

/-- The `sql_args` list built by the loop of `Model.get_column_details`:
one `"<name> <to_sql>"` string appended per `Field` attribute, in order. -/
def Model.sql_args (m : Model) : List String :=
  m.fields.foldl (fun acc p => acc ++ [p.1 ++ " " ++ p.2.to_sql]) []

/-- Embeds `Model.get_column_details`: the comma-join of `sql_args`. -/
def Model.get_column_details (m : Model) : String :=
  String.intercalate "," m.sql_args

/-- Embeds `DatabaseSchemaEditor.generate_table`: the
`CREATE TABLE <name> (<definition>);` template instantiated. -/
def generate_table (table_name definition : String) : String :=
  "CREATE TABLE " ++ table_name ++ " (" ++ definition ++ ");"

/-- The DDL string `_create_migrations` computes for one model. -/
def ddlOfModel (m : Model) : String :=
  generate_table m.get_table_name m.get_column_details

/-- An entry of the list passed to `MigrationManager`: either a `Model`
subclass or some other Python object. -/
inductive PyObj where
  | model : Model → PyObj
  | other : String → PyObj
deriving DecidableEq, Repr

/-- The `models` argument of `MigrationManager.__init__`: a Python list,
or a value of any other type. -/
inductive ModelsArg where
  | pylist : List PyObj → ModelsArg
  | nonList : String → ModelsArg
deriving DecidableEq, Repr

/-- The body of the `_create_migrations` loop: append the model's DDL to the
schema, or raise on a non-Model entry. -/
def migrationStep (schema : List String) (entry : PyObj) : Except String (List String) :=
  match entry with
  | PyObj.model m => Except.ok (schema ++ [ddlOfModel m])
  | PyObj.other _ => Except.error notAModelMsg

/-- Embeds `MigrationManager._create_migrations`: the loop appending one DDL
string per model to `self.schema`, raising on a non-Model entry. -/
def createMigrations (models : List PyObj) : Except String (List String) :=
  models.foldlM migrationStep []

/-- Embeds `MigrationManager.__init__`: rejects a non-list argument, then eagerly
builds the schema via `_create_migrations`. -/
def migrationManagerInit : ModelsArg → Except String (List String)
  | ModelsArg.nonList _ => Except.error notAListMsg
  | ModelsArg.pylist xs => createMigrations xs

/-- Connection-side effects of `DataBaseConnector.exec_create_query`:
the statements whose execution was committed, and every statement handed
to `cursor.execute`. -/
structure ConnState where
  committed : List String
  attempted : List String
deriving DecidableEq, Repr

/-- Embeds `DataBaseConnector.exec_create_query`: executes each query in order,
committing after each one; the first failure stops the loop and the
exception of that statement propagates (`raise e`). `execOk` says whether
the backing store accepts a statement and `errOf` is the store error text
for a rejected statement. -/
def execCreateQuery (execOk : String → Bool) (errOf : String → String) :
    List String → ConnState → ConnState × Except String Unit
  | [], st => (st, Except.ok ())
  | q :: rest, st =>
    if execOk q then
      execCreateQuery execOk errOf rest ⟨st.committed ++ [q], st.attempted ++ [q]⟩
    else
      (⟨st.committed, st.attempted ++ [q]⟩, Except.error (errOf q))

/-- A `DataBaseConnector` instance (its `_database_name` attribute). -/
structure DataBaseConnector where
  database_name : String
deriving DecidableEq, Repr

/-- Embeds `SingletonDBManagerMeta.__call__`: with the class-level `_instance`
cell as explicit state, a call constructs a new instance only when the
cell is empty, and always returns the cell's occupant. -/
def singletonDBCall (database_name : String) :
    Option DataBaseConnector → DataBaseConnector × Option DataBaseConnector
  | Option.none => (⟨database_name⟩, Option.some ⟨database_name⟩)
  | Option.some inst => (inst, Option.some inst)

/-- Modelled from the spec (§4.1 compilation rules): the column fragment a
non-key text-domain field should compile to — the SQL type, then in this
fixed order NOT NULL (iff not nullable), UNIQUE (iff unique), and a
single-quoted DEFAULT clause (iff a truthy default is set). -/
def specNonKeyCharFragment (f : CharField) : String :=
  "VARCHAR(" ++ f.max_length.pyStr ++ ")"
    ++ (if !f.null then " NOT NULL" else "")
    ++ (if f.unique then " UNIQUE" else "")
    ++ (if optStrTruthy f.default then " DEFAULT \x27" ++ optStrPyStr f.default ++ "\x27" else "")

/-- The `name` field of the example `User` model. -/
def userNameField : CharField := ⟨PyVal.int 20, true, false, false, Option.none⟩

/-- The `fav_food` field of the example `User` model. -/
def userFavFoodField : CharField := ⟨PyVal.int 150, false, false, true, Option.none⟩

/-- The example `User` model (`_table_name = "user_table"`). -/
def userModel : Model :=
  ⟨Option.some "user_table", "User",
    [("name", FieldObj.char userNameField), ("fav_food", FieldObj.char userFavFoodField)]⟩

/-- The `test_name` field of the example `Test` model. -/
def testNameField : CharField := ⟨PyVal.int 20, true, false, false, Option.none⟩

/-- The `test_food` field of the example `Test` model. -/
def testFoodField : CharField := ⟨PyVal.int 150, false, false, true, Option.none⟩

/-- The example `Test` model (`_table_name = "test_table"`). -/
def testModel : Model :=
  ⟨Option.some "test_table", "Test",
    [("test_name", FieldObj.char testNameField), ("test_food", FieldObj.char testFoodField)]⟩

/-! Helper lemmas (shared between the claim theorems). -/

/-- Folding an append-one-element step equals mapping then appending. -/
lemma foldl_append_singleton_eq_map {α β : Type} (g : α → β) :
    ∀ (xs : List α) (acc : List β),
      xs.foldl (fun a x => a ++ [g x]) acc = acc ++ xs.map g := by
  intro xs
  induction xs with
  | nil => intro acc; simp
  | cons x rest ih => intro acc; simp [ih]

/-- Binding an error short-circuits the `Except` do-block. -/
lemma charFieldInit_of_basic_error (ml : PyVal) (e : String)
    (h : charFieldBasicChecks ml = Except.error e)
    (pk u nl : Bool) (d : Option String) :
    charFieldInit ml pk u nl d = Except.error e := by
  unfold charFieldInit
  rw [h]
  rfl

/-- On a list of valid models the migration fold appends one DDL string per
model in order. -/
lemma foldlM_migrationStep_models (ms : List Model) :
    ∀ acc : List String,
      List.foldlM migrationStep acc (ms.map PyObj.model) =
        Except.ok (acc ++ ms.map ddlOfModel) := by
  induction ms with
  | nil =>
    intro acc
    show (pure acc : Except String (List String)) = Except.ok (acc ++ [].map ddlOfModel)
    simp [pure, Except.pure]
  | cons m rest ih =>
    intro acc
    have h1 : List.foldlM migrationStep acc ((m :: rest).map PyObj.model) =
        List.foldlM migrationStep (acc ++ [ddlOfModel m]) (rest.map PyObj.model) := rfl
    rw [h1, ih]
    simp

/-- When some entry is not a Model, the migration fold raises. -/
lemma foldlM_migrationStep_error :
    ∀ (xs : List PyObj), (∃ s, PyObj.other s ∈ xs) → ∀ acc : List String,
      List.foldlM migrationStep acc xs = Except.error notAModelMsg := by
  intro xs
  induction xs with
  | nil => rintro ⟨s, hs⟩; simp at hs
  | cons e rest ih =>
    rintro ⟨s, hs⟩ acc
    cases e with
    | other t => rfl
    | model m =>
      have hrest : ∃ s, PyObj.other s ∈ rest := ⟨s, by simpa using hs⟩
      have h1 : List.foldlM migrationStep acc (PyObj.model m :: rest) =
          List.foldlM migrationStep (acc ++ [ddlOfModel m]) rest := rfl
      rw [h1, ih hrest]

/-- Running the batch from an arbitrary starting state just prefixes the
starting state onto the effects of running it from the empty state. -/
lemma execCreateQuery_shift (execOk : String → Bool) (errOf : String → String) :
    ∀ (stmts : List String) (c a : List String),
      execCreateQuery execOk errOf stmts ⟨c, a⟩ =
        (⟨c ++ (execCreateQuery execOk errOf stmts ⟨[], []⟩).1.committed,
          a ++ (execCreateQuery execOk errOf stmts ⟨[], []⟩).1.attempted⟩,
         (execCreateQuery execOk errOf stmts ⟨[], []⟩).2) := by
  intro stmts
  induction stmts with
  | nil => intro c a; simp [execCreateQuery]
  | cons q rest ih =>
    intro c a
    by_cases h : execOk q
    · simp only [execCreateQuery, h, if_true]
      rw [ih (c ++ [q]) (a ++ [q]), ih ([] ++ [q]) ([] ++ [q])]
      simp
    · simp [execCreateQuery, h]

/-- When the store accepts every statement, the whole batch is executed and
committed in order. -/
lemma execCreateQuery_all_ok (execOk : String → Bool) (errOf : String → String) :
    ∀ stmts : List String, (∀ s ∈ stmts, execOk s = true) →
      execCreateQuery execOk errOf stmts ⟨[], []⟩ = (⟨stmts, stmts⟩, Except.ok ()) := by
  intro stmts
  induction stmts with
  | nil => intro _; rfl
  | cons q rest ih =>
    intro h
    have hq : execOk q = true := h q (by simp)
    have hrest : ∀ s ∈ rest, execOk s = true := fun s hs => h s (by simp [hs])
    simp only [execCreateQuery, hq, if_true]
    rw [execCreateQuery_shift, ih hrest]
    simp

/-- When the store rejects the statement after a successful prefix, the
prefix stays committed, the failing statement is the last one attempted, and
its store error propagates. -/
lemma execCreateQuery_fail_at (execOk : String → Bool) (errOf : String → String)
    (q : String) (hq : execOk q = false) :
    ∀ (pre : List String), (∀ s ∈ pre, execOk s = true) → ∀ (post : List String),
      execCreateQuery execOk errOf (pre ++ q :: post) ⟨[], []⟩ =
        (⟨pre, pre ++ [q]⟩, Except.error (errOf q)) := by
  intro pre
  induction pre with
  | nil => intro _ post; simp [execCreateQuery, hq]
  | cons p pre' ih =>
    intro h post
    have hp : execOk p = true := h p (by simp)
    have h' : ∀ s ∈ pre', execOk s = true := fun s hs => h s (by simp [hs])
    simp only [List.cons_append, execCreateQuery, hp, if_true]
    rw [execCreateQuery_shift]
    simp only [List.append_eq]
    rw [ih h' post]
    simp

/-- Monad bind on an `Except.ok` value reduces to the continuation. -/
lemma except_ok_bind {α β : Type} (v : α) (f : α → Except String β) :
    (Except.ok v >>= f) = f v := rfl

/-- Monad bind on an `Except.error` value short-circuits. -/
lemma except_error_bind {α β : Type} (e : String) (f : α → Except String β) :
    ((Except.error e : Except String α) >>= f) = Except.error e := rfl

/-! Claim theorems. -/

/-- C2: for every integer max_length n with 2 ≤ n ≤ 255, constructing a
CharField with primary_key=True and no other constraints succeeds, and its
compiled column fragment is exactly `VARCHAR(n) NOT NULL PRIMARY KEY`. -/
theorem charField_primary_key_golden (n : Int) (h2 : 2 ≤ n) (h255 : n ≤ 255) :
    charFieldInit (PyVal.int n) true false false Option.none =
      Except.ok ⟨PyVal.int n, true, false, false, Option.none⟩ ∧
    CharField.to_sql ⟨PyVal.int n, true, false, false, Option.none⟩ =
      "VARCHAR(" ++ toString n ++ ") NOT NULL PRIMARY KEY" := by
  have h1 : ¬ (n ≤ 1) := by omega
  have h3 : ¬ (255 < n) := by omega
  have hb : charFieldBasicChecks (PyVal.int n) = Except.ok () := by
    simp [charFieldBasicChecks, charFieldCheckMaxLengthAndType,
      charFieldCheckMaxLengthLimit, h1, h3, except_ok_bind]
  constructor
  · unfold charFieldInit
    rw [hb]
    rfl
  · rfl

/-- C2 witness: the n = 50 instance. -/
theorem charField_primary_key_golden_witness :
    charFieldInit (PyVal.int 50) true false false Option.none =
      Except.ok ⟨PyVal.int 50, true, false, false, Option.none⟩ ∧
    CharField.to_sql ⟨PyVal.int 50, true, false, false, Option.none⟩ =
      "VARCHAR(50) NOT NULL PRIMARY KEY" :=
  charField_primary_key_golden 50 (by norm_num) (by norm_num)

/-- C3 counterexample: a unique CharField with the non-None default `""`
does NOT fail — the source tests truthiness, not `is not None` — so the
claim that any non-None default is rejected is false. -/
theorem charField_unique_empty_default_counterexample :
    charFieldInit (PyVal.int 50) false true false (Option.some "") =
      Except.ok ⟨PyVal.int 50, false, true, true, Option.some ""⟩ ∧
    (Option.some "" : Option String) ≠ Option.none := ⟨rfl, by simp⟩

/-- C3 (amended): a unique CharField with a truthy (non-empty) default fails
with the unique/default message; with no default it succeeds, forces
null := true even when null=False was passed, and compiles to exactly
`VARCHAR(m) UNIQUE`. -/
theorem charField_unique_rules (m : Int) (h2 : 2 ≤ m) (h255 : m ≤ 255) :
    (∀ (nl : Bool) (d : String), d ≠ "" →
      charFieldInit (PyVal.int m) false true nl (Option.some d) =
        Except.error uniqueDefaultMsg) ∧
    (∀ nl : Bool,
      charFieldInit (PyVal.int m) false true nl Option.none =
        Except.ok ⟨PyVal.int m, false, true, true, Option.none⟩ ∧
      CharField.to_sql ⟨PyVal.int m, false, true, true, Option.none⟩ =
        "VARCHAR(" ++ toString m ++ ") UNIQUE") := by
  have h1 : ¬ (m ≤ 1) := by omega
  have h3 : ¬ (255 < m) := by omega
  have hb : charFieldBasicChecks (PyVal.int m) = Except.ok () := by
    simp [charFieldBasicChecks, charFieldCheckMaxLengthAndType,
      charFieldCheckMaxLengthLimit, h1, h3, except_ok_bind]
  refine ⟨fun nl d hd => ?_, fun nl => ⟨?_, ?_⟩⟩
  · unfold charFieldInit
    rw [hb]
    simp [optStrTruthy, hd, except_ok_bind]
  · unfold charFieldInit
    rw [hb]
    rfl
  · show ("VARCHAR(" ++ toString m ++ ")") ++
      CharField.remaning_definition ⟨PyVal.int m, false, true, true, Option.none⟩ = _
    rw [show CharField.remaning_definition ⟨PyVal.int m, false, true, true, Option.none⟩ =
      " UNIQUE" from rfl]
    rw [String.append_assoc ("VARCHAR(" ++ toString m) ")" " UNIQUE"]
    rw [show (")" : String) ++ " UNIQUE" = ") UNIQUE" from rfl]

/-- C3 witness: the m = 50 instances (default "x" rejected; no default
accepted with null forced true). -/
theorem charField_unique_rules_witness :
    charFieldInit (PyVal.int 50) false true false (Option.some "x") =
      Except.error uniqueDefaultMsg ∧
    charFieldInit (PyVal.int 50) false true false Option.none =
      Except.ok ⟨PyVal.int 50, false, true, true, Option.none⟩ ∧
    CharField.to_sql ⟨PyVal.int 50, false, true, true, Option.none⟩ =
      "VARCHAR(50) UNIQUE" :=
  ⟨(charField_unique_rules 50 (by norm_num) (by norm_num)).1 false "x" (by simp),
   ((charField_unique_rules 50 (by norm_num) (by norm_num)).2 false).1,
   ((charField_unique_rules 50 (by norm_num) (by norm_num)).2 false).2⟩

/-- C4 counterexample: a default-constructed IntegerField (nullable, no
default) compiles to `INTEGER DEFAULT None` — a spurious DEFAULT clause
appears although no default is set, so the claimed clause discipline fails
outside CharField. -/
theorem integerField_spurious_default_counterexample :
    integerFieldInit false false true Option.none =
      Except.ok ⟨false, false, true, Option.none⟩ ∧
    IntegerField.to_sql ⟨false, false, true, Option.none⟩ = "INTEGER DEFAULT None" ∧
    IntegerField.to_sql ⟨false, false, true, Option.none⟩ ≠ "INTEGER" := by
  refine ⟨rfl, rfl, ?_⟩
  decide

/-- C4 (amended): for every successfully constructed non-primary-key
CharField the compiled fragment is the SQL type followed by exactly, in this
fixed order: NOT NULL iff null is false, never PRIMARY KEY, UNIQUE iff
unique, and a single-quoted DEFAULT clause iff a truthy default is set. -/
theorem charField_nonkey_fragment_order (ml : PyVal) (pk u nl : Bool)
    (d : Option String) (f : CharField)
    (_h : charFieldInit ml pk u nl d = Except.ok f)
    (hpk : f.primary_key = false) :
    f.to_sql = specNonKeyCharFragment f := by
  unfold CharField.to_sql specNonKeyCharFragment
  rw [hpk]
  unfold CharField.remaning_definition CharField.check_null CharField.check_primary_key
    CharField.check_unique CharField.check_default
  rw [hpk]
  simp only [if_false, Bool.false_eq_true, String.append_empty, String.empty_append,
    String.append_assoc]

/-- C4 witness: a constructed nullable CharField with a default. -/
theorem charField_nonkey_fragment_order_witness :
    charFieldInit (PyVal.int 50) false false true (Option.some "x") =
      Except.ok ⟨PyVal.int 50, false, false, true, Option.some "x"⟩ ∧
    CharField.to_sql ⟨PyVal.int 50, false, false, true, Option.some "x"⟩ =
      specNonKeyCharFragment ⟨PyVal.int 50, false, false, true, Option.some "x"⟩ :=
  ⟨rfl, charField_nonkey_fragment_order (PyVal.int 50) false false true (Option.some "x")
    ⟨PyVal.int 50, false, false, true, Option.some "x"⟩ rfl rfl⟩

/-- C5: a CharField whose max_length is None, a string, or an integer ≤ 1
always fails with exactly the max_length type/size message, and an integer
max_length above 255 always fails with exactly the 255-limit message,
whatever the other arguments are. -/
theorem charField_max_length_error_messages (pk u nl : Bool) (d : Option String) :
    charFieldInit PyVal.none pk u nl d = Except.error maxLengthTypeMsg ∧
    (∀ s : String, charFieldInit (PyVal.str s) pk u nl d = Except.error maxLengthTypeMsg) ∧
    (∀ n : Int, n ≤ 1 → charFieldInit (PyVal.int n) pk u nl d = Except.error maxLengthTypeMsg) ∧
    (∀ n : Int, 255 < n →
      charFieldInit (PyVal.int n) pk u nl d = Except.error maxLengthLimitMsg) := by
  refine ⟨rfl, fun s => rfl, fun n hn => ?_, fun n hn => ?_⟩
  · apply charFieldInit_of_basic_error
    simp [charFieldBasicChecks, charFieldCheckMaxLengthAndType, hn, except_error_bind]
  · apply charFieldInit_of_basic_error
    have h1 : ¬ (n ≤ 1) := by omega
    simp [charFieldBasicChecks, charFieldCheckMaxLengthAndType,
      charFieldCheckMaxLengthLimit, h1, hn, except_ok_bind]

/-- C5 witness: the four concrete inputs of the claim (None, "None", 0, 566),
with primary_key=True and null=True also set. -/
theorem charField_max_length_error_messages_witness :
    charFieldInit PyVal.none true false true Option.none =
      Except.error maxLengthTypeMsg ∧
    charFieldInit (PyVal.str "None") true false true Option.none =
      Except.error maxLengthTypeMsg ∧
    charFieldInit (PyVal.int 0) true false true Option.none =
      Except.error maxLengthTypeMsg ∧
    charFieldInit (PyVal.int 566) true false true Option.none =
      Except.error maxLengthLimitMsg :=
  ⟨(charField_max_length_error_messages true false true Option.none).1,
   (charField_max_length_error_messages true false true Option.none).2.1 "None",
   (charField_max_length_error_messages true false true Option.none).2.2.1 0 (by norm_num),
   (charField_max_length_error_messages true false true Option.none).2.2.2 566 (by norm_num)⟩

/-- C10: the max_length checks run before any constraint-combination check —
whenever `_basic_checks` rejects the max_length with message e, construction
fails with exactly e for every combination of the remaining arguments, and e
is always one of the two max_length messages. -/
theorem charField_max_length_checked_first (ml : PyVal) (e : String)
    (h : charFieldBasicChecks ml = Except.error e)
    (pk u nl : Bool) (d : Option String) :
    charFieldInit ml pk u nl d = Except.error e ∧
      (e = maxLengthTypeMsg ∨ e = maxLengthLimitMsg) := by
  refine ⟨charFieldInit_of_basic_error ml e h pk u nl d, ?_⟩
  cases ml with
  | none =>
    have h0 : Except.error (α := Unit) (ε := String) maxLengthTypeMsg = Except.error e := h
    exact Or.inl (Except.error.inj h0).symm
  | str s =>
    have h0 : Except.error (α := Unit) (ε := String) maxLengthTypeMsg = Except.error e := h
    exact Or.inl (Except.error.inj h0).symm
  | int n =>
    simp only [charFieldBasicChecks, charFieldCheckMaxLengthAndType,
      charFieldCheckMaxLengthLimit] at h
    by_cases h1 : n ≤ 1
    · rw [if_pos h1, except_error_bind] at h
      exact Or.inl (Except.error.inj h).symm
    · by_cases h2 : 255 < n
      · rw [if_neg h1, except_ok_bind, if_pos h2] at h
        exact Or.inr (Except.error.inj h).symm
      · rw [if_neg h1, except_ok_bind, if_neg h2] at h
        exact absurd h (by simp)

/-- C10 witness: the claim's example — max_length=None together with the
illegal combination primary_key=True, null=True reports the max_length
message. -/
theorem charField_max_length_checked_first_witness :
    charFieldInit PyVal.none true false true Option.none =
      Except.error maxLengthTypeMsg ∧
    (maxLengthTypeMsg = maxLengthTypeMsg ∨ maxLengthTypeMsg = maxLengthLimitMsg) :=
  charField_max_length_checked_first PyVal.none maxLengthTypeMsg rfl true false true Option.none

/-- C1 counterexample: the schema built for `[User, Test]` is not the pair of
strings the claim specifies — the actual first statement spells the column
`fav_food` (the declared field name, not `favfood`) and ends with the
template's semicolon. -/
theorem migration_schema_counterexample :
    migrationManagerInit (ModelsArg.pylist [PyObj.model userModel, PyObj.model testModel]) ≠
      Except.ok
        ["CREATE TABLE user_table (name VARCHAR(20) NOT NULL PRIMARY KEY,favfood VARCHAR(150))",
         "CREATE TABLE test_table (test_name VARCHAR(20) NOT NULL PRIMARY KEY,test_food VARCHAR(150))"] := by
  intro hcl
  have heval : migrationManagerInit
      (ModelsArg.pylist [PyObj.model userModel, PyObj.model testModel]) =
      Except.ok
        ["CREATE TABLE user_table (name VARCHAR(20) NOT NULL PRIMARY KEY,fav_food VARCHAR(150));",
         "CREATE TABLE test_table (test_name VARCHAR(20) NOT NULL PRIMARY KEY,test_food VARCHAR(150));"] := rfl
  rw [heval] at hcl
  exact absurd (Except.ok.inj hcl) (by decide)

/-- C1 (amended): the fields of User and Test construct as declared, and
`MigrationManager([User, Test])` produces exactly two DDL strings in
registration order, each matching the `CREATE TABLE {table_name}
({definition});` template (with the trailing semicolon and the declared
field names, `fav_food` included, as column names). -/
theorem migration_schema_exact :
    charFieldInit (PyVal.int 20) true false false Option.none = Except.ok userNameField ∧
    charFieldInit (PyVal.int 150) false false true Option.none = Except.ok userFavFoodField ∧
    charFieldInit (PyVal.int 20) true false false Option.none = Except.ok testNameField ∧
    charFieldInit (PyVal.int 150) false false true Option.none = Except.ok testFoodField ∧
    migrationManagerInit (ModelsArg.pylist [PyObj.model userModel, PyObj.model testModel]) =
      Except.ok
        ["CREATE TABLE user_table (name VARCHAR(20) NOT NULL PRIMARY KEY,fav_food VARCHAR(150));",
         "CREATE TABLE test_table (test_name VARCHAR(20) NOT NULL PRIMARY KEY,test_food VARCHAR(150));"] ∧
    generate_table "user_table" "name VARCHAR(20) NOT NULL PRIMARY KEY,fav_food VARCHAR(150)" =
      "CREATE TABLE user_table (name VARCHAR(20) NOT NULL PRIMARY KEY,fav_food VARCHAR(150));" :=
  ⟨rfl, rfl, rfl, rfl, rfl, rfl⟩

/-- C6: MigrationManager construction fails with the ConfigError message when
the argument is not a list, fails (rather than skipping) when any entry is
not a valid Model, and on a list of valid Models eagerly stores exactly one
DDL string per model, in registration order. -/
theorem migration_manager_init_spec :
    (∀ s : String, migrationManagerInit (ModelsArg.nonList s) = Except.error notAListMsg) ∧
    (∀ xs : List PyObj, (∃ s : String, PyObj.other s ∈ xs) →
      migrationManagerInit (ModelsArg.pylist xs) = Except.error notAModelMsg) ∧
    (∀ ms : List Model,
      migrationManagerInit (ModelsArg.pylist (ms.map PyObj.model)) =
        Except.ok (ms.map ddlOfModel) ∧
      (ms.map ddlOfModel).length = ms.length) := by
  refine ⟨fun s => rfl, fun xs hx => ?_, fun ms => ⟨?_, by simp⟩⟩
  · show createMigrations xs = Except.error notAModelMsg
    unfold createMigrations
    exact foldlM_migrationStep_error xs hx []
  · show createMigrations (ms.map PyObj.model) = Except.ok (ms.map ddlOfModel)
    unfold createMigrations
    simpa using foldlM_migrationStep_models ms []

/-- C6 witness: a non-list argument, a list with a non-Model entry, and the
one-model list each behave as stated. -/
theorem migration_manager_init_spec_witness :
    migrationManagerInit (ModelsArg.nonList "42") = Except.error notAListMsg ∧
    migrationManagerInit (ModelsArg.pylist [PyObj.model userModel, PyObj.other "object"]) =
      Except.error notAModelMsg ∧
    migrationManagerInit (ModelsArg.pylist [PyObj.model userModel]) =
      Except.ok [ddlOfModel userModel] :=
  ⟨migration_manager_init_spec.1 "42",
   migration_manager_init_spec.2.1 [PyObj.model userModel, PyObj.other "object"]
     ⟨"object", by simp⟩,
   (migration_manager_init_spec.2.2 [userModel]).1⟩

/-- C7: batch execution runs statements strictly in order with a commit after
each one; when the store rejects statement k, statements 1..k-1 remain
committed, statement k is the last one attempted (nothing after it runs),
nothing is rolled back, and the propagated error is the store's error for
that statement; when every statement is accepted the whole batch commits in
order. -/
theorem exec_create_query_spec (execOk : String → Bool) (errOf : String → String) :
    (∀ (pre : List String) (q : String) (post : List String),
      (∀ s ∈ pre, execOk s = true) → execOk q = false →
        execCreateQuery execOk errOf (pre ++ q :: post) ⟨[], []⟩ =
          (⟨pre, pre ++ [q]⟩, Except.error (errOf q))) ∧
    (∀ stmts : List String, (∀ s ∈ stmts, execOk s = true) →
      execCreateQuery execOk errOf stmts ⟨[], []⟩ = (⟨stmts, stmts⟩, Except.ok ())) :=
  ⟨fun pre q post hpre hq => execCreateQuery_fail_at execOk errOf q hq pre hpre post,
   fun stmts h => execCreateQuery_all_ok execOk errOf stmts h⟩

/-- C7 witness: a store rejecting exactly the statement "BAD" — the prefix
stays committed, "C" is never attempted, and the error names the failing
statement. -/
theorem exec_create_query_spec_witness :
    execCreateQuery (fun s => s != "BAD") (fun s => "near " ++ s ++ ": failed")
      ["A", "BAD", "C"] ⟨[], []⟩ =
      (⟨["A"], ["A", "BAD"]⟩, Except.error "near BAD: failed") ∧
    execCreateQuery (fun s => s != "BAD") (fun s => "near " ++ s ++ ": failed")
      ["A", "B"] ⟨[], []⟩ =
      (⟨["A", "B"], ["A", "B"]⟩, Except.ok ()) :=
  ⟨(exec_create_query_spec (fun s => s != "BAD") (fun s => "near " ++ s ++ ": failed")).1
     ["A"] "BAD" ["C"] (by decide) (by decide),
   (exec_create_query_spec (fun s => s != "BAD") (fun s => "near " ++ s ++ ": failed")).2
     ["A", "B"] (by decide)⟩

/-- C8: the singleton metaclass keeps at most one live connector — a repeated
request for the same target returns the existing instance, but a request for
a DIFFERENT target also silently returns the instance opened for the first
target (the latent bug the claim forbids): after opening "test_db.db", a
request for "new_db" yields the "test_db.db" connector, not one for
"new_db". -/
theorem singleton_connector_redirect :
    (singletonDBCall "test_db.db" Option.none).1 = ⟨"test_db.db"⟩ ∧
    (singletonDBCall "test_db.db" (singletonDBCall "test_db.db" Option.none).2).1 =
      ⟨"test_db.db"⟩ ∧
    (singletonDBCall "new_db" (singletonDBCall "test_db.db" Option.none).2).1 =
      ⟨"test_db.db"⟩ ∧
    (singletonDBCall "new_db" (singletonDBCall "test_db.db" Option.none).2).1 ≠
      ⟨"new_db"⟩ :=
  ⟨rfl, rfl, rfl, by decide⟩

/-- C9: schema compilation is deterministic and order-preserving — the
`sql_args` list is exactly the declared fields mapped to fragments (same
length, i-th entry from the i-th declared field), `get_column_details` is
their comma-join in declaration order, and two models with the same declared
data compile to identical column details and identical DDL. -/
theorem model_compilation_order_deterministic (m : Model) :
    m.sql_args = m.fields.map (fun p => p.1 ++ " " ++ p.2.to_sql) ∧
    m.sql_args.length = m.fields.length ∧
    (∀ i : Nat, m.sql_args[i]? = (m.fields[i]?).map (fun p => p.1 ++ " " ++ p.2.to_sql)) ∧
    m.get_column_details =
      String.intercalate "," (m.fields.map (fun p => p.1 ++ " " ++ p.2.to_sql)) ∧
    (∀ m2 : Model, m.fields = m2.fields →
      m.get_column_details = m2.get_column_details) ∧
    (∀ m2 : Model, m.table_name = m2.table_name → m.className = m2.className →
      m.fields = m2.fields → ddlOfModel m = ddlOfModel m2) := by
  have hmap : m.sql_args = m.fields.map (fun p => p.1 ++ " " ++ p.2.to_sql) :=
    foldl_append_singleton_eq_map _ m.fields []
  refine ⟨hmap, by rw [hmap]; simp, fun i => by rw [hmap]; simp, ?_, fun m2 hf => ?_, ?_⟩
  · unfold Model.get_column_details
    rw [hmap]
  · unfold Model.get_column_details Model.sql_args
    rw [hf]
  · intro m2 h1 h2 h3
    cases m
    cases m2
    simp only at h1 h2 h3
    subst h1 h2 h3
    rfl

/-- C9 witness: the first column fragment of the example User model is the
`name` primary-key fragment, and a model differing only in class name (the
internal storage identity) compiles the same column details. -/
theorem model_compilation_order_deterministic_witness :
    userModel.sql_args[0]? = Option.some "name VARCHAR(20) NOT NULL PRIMARY KEY" ∧
    (Model.mk (Option.some "t") "A" userModel.fields).get_column_details =
      (Model.mk (Option.some "t") "B" userModel.fields).get_column_details :=
  ⟨((model_compilation_order_deterministic userModel).2.2.1 0).trans rfl,
   (model_compilation_order_deterministic
       (Model.mk (Option.some "t") "A" userModel.fields)).2.2.2.2.1
     (Model.mk (Option.some "t") "B" userModel.fields) rfl⟩

end SqliteORM
